import Mathlib

/-!
Shallow embedding of `src/py_utils/housekeeper.py` (the directory
housekeeping module) and proofs of the specification's claims about it.

The filesystem and operator collaborators are modelled explicitly:

* `FSState` models the filesystem as seen by one invocation: whether the
  target path exists (`os.path.exists`), whether it is a directory, and the
  list of regular files (with modification timestamps) that
  `Path(directory).rglob('*')` discovers, in traversal order.
* The confirmation prompt is modelled by passing the operator's response
  string as an argument; deletion outcomes (`os.remove` succeeding or
  raising) are modelled by a predicate `delOk` on file entries.
* Each operation returns the Python return value (or the raised
  `FileNotFoundError`) together with an `HkEffects` trace: the console
  messages printed, whether the confirmation prompt was issued, the files
  on which `os.remove` was attempted, and the files actually deleted.

Timestamps are integers (seconds); `timedelta(days=d)` is `d * 86400`.
-/

namespace Housekeeper

/-- A regular file discovered under the target directory: its path and its
last-modification timestamp (`st_mtime`), in seconds. -/
structure FileEntry where
  path : String
  mtime : Int
deriving Repr, DecidableEq

/-- The filesystem state a single invocation observes: the directory
argument, whether that path exists, whether it is a directory, and the
regular files `rglob` discovers (in traversal order). -/
structure FSState where
  dir : String
  pathExists : Bool
  isDirectory : Bool
  files : List FileEntry
deriving Repr, DecidableEq

/-- The error raised by the precondition check
(`FileNotFoundError` in the Python source). -/
inductive HkError where
  | fileNotFound (msg : String)
deriving Repr, DecidableEq

/-- Observable effects of one invocation: console messages, whether the
confirmation prompt was issued, the files on which deletion was attempted,
and the files whose deletion succeeded. -/
structure HkEffects where
  messages : List String
  prompted : Bool
  attempts : List FileEntry
  deleted : List FileEntry
deriving Repr, DecidableEq

/-- Effects of an invocation that did nothing observable. -/
def noEffects : HkEffects :=
  { messages := [], prompted := false, attempts := [], deleted := [] }

/-- Python's `str.lower()` applied to the operator's response: lowercase
every character. -/
def strLower (s : String) : String := ⟨s.data.map Char.toLower⟩

/-- `datetime.now() - timedelta(days=days_old)`, as a timestamp:
`cutoff_timestamp` in the source. -/
def cutoffTimestamp (now : Int) (days_old : Int) : Int :=
  now - days_old * 86400

/-- The selection loop of `housekeep_by_age` (source lines 30-33): the
files whose modification time is strictly below the cutoff. -/
def eligibleByAge (files : List FileEntry) (cutoff : Int) : List FileEntry :=
  files.filter (fun f => f.mtime < cutoff)

/-- The deletion loop shared by both operations (source lines 50-58 and
100-108): attempt `os.remove` on every file in order; count the successes;
print an error message for each failure and keep going.  Returns the
success count, the error messages, and the successfully deleted files. -/
def deleteLoop (delOk : FileEntry → Bool) :
    List FileEntry → Nat × List String × List FileEntry
  | [] => (0, [], [])
  | f :: fs =>
    let rest := deleteLoop delOk fs
    if delOk f then
      (rest.1 + 1, rest.2.1, f :: rest.2.2)
    else
      (rest.1, ("Error deleting " ++ f.path) :: rest.2.1, rest.2.2)

/-- The sort key order of `files.sort(key=lambda x: x[1], reverse=True)`:
`a` precedes `b` when `a`'s modification time is at least `b`'s. -/
def mtimeGe (a b : FileEntry) : Prop := b.mtime ≤ a.mtime

instance : DecidableRel mtimeGe :=
  fun a b => inferInstanceAs (Decidable (b.mtime ≤ a.mtime))

instance : IsTotal FileEntry mtimeGe :=
  ⟨fun a b => le_total b.mtime a.mtime⟩

instance : IsTrans FileEntry mtimeGe :=
  ⟨fun _ _ _ hab hbc => le_trans hbc hab⟩

/-- `files.sort(key=lambda x: x[1], reverse=True)` (source line 88): a
stable sort by modification time, newest first. -/
def sortByMtimeDesc (files : List FileEntry) : List FileEntry :=
  List.insertionSort mtimeGe files

/-- The confirmation listing printed by `housekeep_by_age` (source lines
40-44): the count, the first five candidate paths, and a note about how
many more are omitted. -/
def ageConfirmMsgs (days_old : Int) (files_to_delete : List FileEntry) :
    List String :=
  ("Will delete " ++ toString files_to_delete.length ++ " files older than "
      ++ toString days_old ++ " days:")
    :: (files_to_delete.take 5).map (fun f => "  " ++ f.path)
    ++ (if files_to_delete.length > 5 then
          ["  ... and " ++ toString (files_to_delete.length - 5) ++ " more"]
        else [])

/-- `Housekeeper.housekeep_by_age(directory, days_old, confirm)`
(source lines 10-58).  `response` is the operator's answer to the prompt;
`delOk` tells which `os.remove` calls succeed. -/
def housekeep_by_age (st : FSState) (now : Int) (days_old : Int)
    (confirm : Bool) (response : String) (delOk : FileEntry → Bool) :
    Except HkError Nat × HkEffects :=
  if st.pathExists = false then
    (.error (.fileNotFound ("Directory " ++ st.dir ++ " does not exist")),
     noEffects)
  else
    let cutoff := cutoffTimestamp now days_old
    let files_to_delete := eligibleByAge st.files cutoff
    if files_to_delete.isEmpty then
      (.ok 0,
       { messages := ["No files older than " ++ toString days_old
            ++ " days found."],
         prompted := false, attempts := [], deleted := [] })
    else
      if confirm ∧ strLower response ≠ "y" then
        (.ok 0,
         { messages := ageConfirmMsgs days_old files_to_delete
              ++ ["Deletion cancelled."],
           prompted := true, attempts := [], deleted := [] })
      else
        let r := deleteLoop delOk files_to_delete
        (.ok r.1,
         { messages := (if confirm then ageConfirmMsgs days_old files_to_delete
              else []) ++ r.2.1,
           prompted := confirm, attempts := files_to_delete,
           deleted := r.2.2 })

/-- `Housekeeper.housekeep_by_count(directory, keep_count, confirm)`
(source lines 60-108). -/
def housekeep_by_count (st : FSState) (keep_count : Nat) (confirm : Bool)
    (response : String) (delOk : FileEntry → Bool) :
    Except HkError Nat × HkEffects :=
  if st.pathExists = false then
    (.error (.fileNotFound ("Directory " ++ st.dir ++ " does not exist")),
     noEffects)
  else
    let files := st.files
    if files.length ≤ keep_count then
      (.ok 0,
       { messages := ["Only " ++ toString files.length
            ++ " files found, no deletion needed."],
         prompted := false, attempts := [], deleted := [] })
    else
      let sorted := sortByMtimeDesc files
      let files_to_delete := sorted.drop keep_count
      if confirm ∧ strLower response ≠ "y" then
        (.ok 0,
         { messages := ["Will delete " ++ toString files_to_delete.length
              ++ " files, keeping " ++ toString keep_count ++ " newest.",
              "Deletion cancelled."],
           prompted := true, attempts := [], deleted := [] })
      else
        let r := deleteLoop delOk files_to_delete
        (.ok r.1,
         { messages := (if confirm then
              ["Will delete " ++ toString files_to_delete.length
                ++ " files, keeping " ++ toString keep_count ++ " newest."]
              else []) ++ r.2.1,
           prompted := confirm, attempts := files_to_delete,
           deleted := r.2.2 })

/-- `cleanup_directory(directory, days_old, keep_count)` (source lines
111-129).  Note: the delegations on lines 124 and 126 pass only two
arguments, so `confirm` keeps its default value `True`. -/
def cleanup_directory (st : FSState) (now : Int) (days_old : Option Int)
    (keep_count : Option Nat) (response : String)
    (delOk : FileEntry → Bool) : Except HkError Nat × HkEffects :=
  match days_old with
  | some d => housekeep_by_age st now d true response delOk
  | none =>
    match keep_count with
    | some k => housekeep_by_count st k true response delOk
    | none =>
      (.ok 0,
       { messages := ["Specify days_old or keep_count"],
         prompted := false, attempts := [], deleted := [] })

/-- The filesystem state after a run: the files whose deletion succeeded
are gone; everything else is unchanged. -/
def applyDeletions (st : FSState) (deleted : List FileEntry) : FSState :=
  { st with files := st.files.filter (fun f => !(decide (f ∈ deleted))) }

/-! ### Concrete filesystem states used by witnesses and counterexamples -/

/-- A directory with one stale file (modification time far below any
cutoff used with it). -/
def cexDirState : FSState :=
  { dir := "logs", pathExists := true, isDirectory := true,
    files := [{ path := "logs/a.txt", mtime := 0 }] }

/-- Seven files whose modification times are `now - i` hours for
`i = 0, …, 6`, with `now = 1000000`. -/
def st7 : FSState :=
  { dir := "archive", pathExists := true, isDirectory := true,
    files :=
      [{ path := "file_0.txt", mtime := 1000000 },
       { path := "file_1.txt", mtime := 996400 },
       { path := "file_2.txt", mtime := 992800 },
       { path := "file_3.txt", mtime := 989200 },
       { path := "file_4.txt", mtime := 985600 },
       { path := "file_5.txt", mtime := 982000 },
       { path := "file_6.txt", mtime := 978400 }] }

/-- A path that does not exist. -/
def ghostState : FSState :=
  { dir := "missing", pathExists := false, isDirectory := false, files := [] }

/-- A directory with one stale file, for the cancellation scenario. -/
def cancelState : FSState :=
  { dir := "spool", pathExists := true, isDirectory := true,
    files := [{ path := "spool/x.dat", mtime := 0 }] }

/-- Three stale files; deleting the middle one will be made to fail. -/
def mixedState : FSState :=
  { dir := "tmp", pathExists := true, isDirectory := true,
    files := [{ path := "a", mtime := 0 }, { path := "b", mtime := 1 },
              { path := "c", mtime := 2 }] }

/-- An existing directory containing no files at all. -/
def emptyDirState : FSState :=
  { dir := "empty", pathExists := true, isDirectory := true, files := [] }

/-- One file exactly at the age cutoff `1000000 - 7 * 86400 = 395200` and
one strictly older. -/
def boundaryState : FSState :=
  { dir := "edgecase", pathExists := true, isDirectory := true,
    files := [{ path := "edge", mtime := 395200 },
              { path := "old", mtime := 0 }] }

/-- One stale file and one fresh file, for the repeated-run scenario. -/
def agingState : FSState :=
  { dir := "logs2", pathExists := true, isDirectory := true,
    files := [{ path := "stale", mtime := 0 },
              { path := "fresh", mtime := 999999 }] }

/-- A path that exists but is a regular file, not a directory. -/
def plainFileState : FSState :=
  { dir := "notes.txt", pathExists := true, isDirectory := false, files := [] }

/-! ### Helper lemmas -/

theorem deleteLoop_eq (delOk : FileEntry → Bool) (l : List FileEntry) :
    deleteLoop delOk l =
      ((l.filter delOk).length,
       (l.filter (fun f => !(delOk f))).map (fun f => "Error deleting " ++ f.path),
       l.filter delOk) := by
  induction l with
  | nil => rfl
  | cons f fs ih => cases h : delOk f <;> simp [deleteLoop, ih, h]

theorem age_no_confirm (st : FSState) (now d : Int) (resp : String)
    (delOk : FileEntry → Bool) (h : st.pathExists = true) :
    housekeep_by_age st now d false resp delOk =
      (.ok ((eligibleByAge st.files (cutoffTimestamp now d)).filter delOk).length,
       { messages :=
           if (eligibleByAge st.files (cutoffTimestamp now d)).isEmpty then
             ["No files older than " ++ toString d ++ " days found."]
           else
             ((eligibleByAge st.files (cutoffTimestamp now d)).filter
                 (fun f => !(delOk f))).map (fun f => "Error deleting " ++ f.path),
         prompted := false,
         attempts := eligibleByAge st.files (cutoffTimestamp now d),
         deleted := (eligibleByAge st.files (cutoffTimestamp now d)).filter delOk }) := by
  by_cases he : (eligibleByAge st.files (cutoffTimestamp now d)).isEmpty
  · have hnil : eligibleByAge st.files (cutoffTimestamp now d) = [] := by
      simpa [List.isEmpty_iff] using he
    simp [housekeep_by_age, h, he, hnil]
  · simp [housekeep_by_age, h, he, deleteLoop_eq]

theorem count_no_confirm (st : FSState) (k : Nat) (resp : String)
    (delOk : FileEntry → Bool) (h : st.pathExists = true) :
    housekeep_by_count st k false resp delOk =
      (.ok (((sortByMtimeDesc st.files).drop k).filter delOk).length,
       { messages :=
           if st.files.length ≤ k then
             ["Only " ++ toString st.files.length
               ++ " files found, no deletion needed."]
           else
             (((sortByMtimeDesc st.files).drop k).filter (fun f => !(delOk f))).map
               (fun f => "Error deleting " ++ f.path),
         prompted := false,
         attempts := (sortByMtimeDesc st.files).drop k,
         deleted := ((sortByMtimeDesc st.files).drop k).filter delOk }) := by
  by_cases hk : st.files.length ≤ k
  · have hdrop : (sortByMtimeDesc st.files).drop k = [] := by
      apply List.drop_eq_nil_of_le
      rw [sortByMtimeDesc, List.length_insertionSort]
      exact hk
    simp [housekeep_by_count, h, hk, hdrop]
  · simp [housekeep_by_count, h, hk, deleteLoop_eq]

theorem sortByMtimeDesc_perm (files : List FileEntry) :
    (sortByMtimeDesc files).Perm files :=
  List.perm_insertionSort mtimeGe files

theorem drop_lt_take_mtime (files : List FileEntry) (k : Nat)
    (hnd : (files.map FileEntry.mtime).Nodup) :
    ∀ f ∈ (sortByMtimeDesc files).drop k,
      ∀ g ∈ (sortByMtimeDesc files).take k, f.mtime < g.mtime := by
  intro f hf g hg
  have hs : List.Sorted mtimeGe (sortByMtimeDesc files) :=
    List.sorted_insertionSort mtimeGe files
  have hsp : List.Pairwise mtimeGe
      ((sortByMtimeDesc files).take k ++ (sortByMtimeDesc files).drop k) := by
    rw [List.take_append_drop]; exact hs
  have hle : f.mtime ≤ g.mtime :=
    (List.pairwise_append.mp hsp).2.2 g hg f hf
  have hnd2 : ((sortByMtimeDesc files).map FileEntry.mtime).Nodup :=
    (((sortByMtimeDesc_perm files).map FileEntry.mtime).nodup_iff).mpr hnd
  have hnd3 : (((sortByMtimeDesc files).take k).map FileEntry.mtime
      ++ ((sortByMtimeDesc files).drop k).map FileEntry.mtime).Nodup := by
    rw [← List.map_append, List.take_append_drop]; exact hnd2
  have hdisj := (List.nodup_append.mp hnd3).2.2
  have hne : f.mtime ≠ g.mtime := by
    intro hEq
    exact hdisj (List.mem_map_of_mem FileEntry.mtime hg)
      (hEq ▸ List.mem_map_of_mem FileEntry.mtime hf)
  exact lt_of_le_of_ne hle hne

/-! ### Claims -/

/-- C1 counterexample: with one eligible file and operator response "n",
the dispatcher `cleanup_directory` returns 0 (its delegation keeps the
delegate's default `confirm = True`, so the non-affirmative response
cancels), while the claimed confirmation-suppressed delegate call returns
1 — for the age branch and the count branch alike.  So the dispatcher does
not delegate with confirmation suppressed. -/
theorem cleanup_directory_not_suppressed :
    (cleanup_directory cexDirState 1000000 (some 7) none "n"
        (fun _ => true)).1 = .ok 0 ∧
    (housekeep_by_age cexDirState 1000000 7 false "n" (fun _ => true)).1 =
      .ok 1 ∧
    (cleanup_directory cexDirState 1000000 none (some 0) "n"
        (fun _ => true)).1 = .ok 0 ∧
    (housekeep_by_count cexDirState 0 false "n" (fun _ => true)).1 = .ok 1 ∧
    (Except.ok 0 : Except HkError Nat) ≠ .ok 1 := by
  refine ⟨rfl, rfl, rfl, rfl, fun h => ?_⟩
  injection h with h1
  exact absurd h1 (by decide)

/-- C1 (amended): when `days_old` is provided (whether or not `keep_count`
also is), `cleanup_directory` delegates to `housekeep_by_age`, and when
only `keep_count` is provided it delegates to `housekeep_by_count`;
in both cases the delegate runs with its default `confirm = true`
(interactive confirmation, not suppressed) and its result is returned. -/
theorem cleanup_directory_delegates (st : FSState) (now d : Int)
    (kc : Option Nat) (k : Nat) (resp : String) (delOk : FileEntry → Bool) :
    cleanup_directory st now (some d) kc resp delOk =
      housekeep_by_age st now d true resp delOk ∧
    cleanup_directory st now none (some k) resp delOk =
      housekeep_by_count st k true resp delOk :=
  ⟨rfl, rfl⟩

/-- C2: for pairwise-distinct modification times and `keep_count = k < N`,
`housekeep_by_count` (confirmation off, all deletions succeeding) returns
`N - k`; the deleted set is the suffix of the descending-sorted listing
past the first `k` entries, it has `N - k` elements, the retained prefix
has `k` elements, retained and deleted together are a permutation of the
discovered files, and every deleted file is strictly older than every
retained file — i.e. exactly the `N - k` oldest are deleted and the `k`
newest retained. -/
theorem housekeep_by_count_deletes_oldest (st : FSState) (k : Nat)
    (resp : String) (hex : st.pathExists = true)
    (hnd : (st.files.map FileEntry.mtime).Nodup)
    (hk : k < st.files.length) :
    (housekeep_by_count st k false resp (fun _ => true)).1 =
      .ok (st.files.length - k) ∧
    (housekeep_by_count st k false resp (fun _ => true)).2.deleted =
      (sortByMtimeDesc st.files).drop k ∧
    ((sortByMtimeDesc st.files).drop k).length = st.files.length - k ∧
    ((sortByMtimeDesc st.files).take k).length = k ∧
    ((sortByMtimeDesc st.files).take k
        ++ (sortByMtimeDesc st.files).drop k).Perm st.files ∧
    ∀ f ∈ (sortByMtimeDesc st.files).drop k,
      ∀ g ∈ (sortByMtimeDesc st.files).take k, f.mtime < g.mtime := by
  have hlen : (sortByMtimeDesc st.files).length = st.files.length := by
    rw [sortByMtimeDesc, List.length_insertionSort]
  have hrun := count_no_confirm st k resp (fun _ => true) hex
  refine ⟨?_, ?_, ?_, ?_, ?_, drop_lt_take_mtime st.files k hnd⟩
  · rw [hrun]; simp [List.length_drop, hlen]
  · rw [hrun]; simp
  · rw [List.length_drop, hlen]
  · rw [List.length_take, hlen]; exact Nat.min_eq_left (Nat.le_of_lt hk)
  · rw [List.take_append_drop]; exact sortByMtimeDesc_perm st.files

/-- C2 witness: the concrete scenario with 7 files at `now - 0, …, 6`
hours and `keep_count = 3` — the hypotheses hold and the run returns 4. -/
theorem housekeep_by_count_deletes_oldest_scenario :
    ((st7.files.map FileEntry.mtime).Nodup ∧ 3 < st7.files.length) ∧
      (housekeep_by_count st7 3 false "" (fun _ => true)).1 = .ok 4 :=
  ⟨⟨by decide, by decide⟩,
   (housekeep_by_count_deletes_oldest st7 3 "" rfl (by decide) (by decide)).1⟩

/-- C3: when the directory does not exist, both operations raise the
directory-not-found error before any enumeration and produce no effects at
all — no messages, no prompt, no attempted or successful deletion. -/
theorem missing_directory_raises (st : FSState) (now d : Int) (k : Nat)
    (c : Bool) (resp : String) (delOk : FileEntry → Bool)
    (h : st.pathExists = false) :
    housekeep_by_age st now d c resp delOk =
      (.error (.fileNotFound ("Directory " ++ st.dir ++ " does not exist")),
       noEffects) ∧
    housekeep_by_count st k c resp delOk =
      (.error (.fileNotFound ("Directory " ++ st.dir ++ " does not exist")),
       noEffects) := by
  constructor <;> simp [housekeep_by_age, housekeep_by_count, h]

/-- C3 witness: on the concrete missing path, `housekeep_by_age` returns
the directory-not-found error with no effects. -/
theorem missing_directory_raises_witness :
    ghostState.pathExists = false ∧
      housekeep_by_age ghostState 0 7 false "" (fun _ => true) =
        (.error (.fileNotFound
            ("Directory " ++ ghostState.dir ++ " does not exist")),
         noEffects) :=
  ⟨rfl,
   (missing_directory_raises ghostState 0 7 5 false "" (fun _ => true) rfl).1⟩

/-- C4: with eligible work present and `confirm = true`, any operator
response whose lowercase form is not "y" makes both operations return 0,
print "Deletion cancelled.", and attempt no deletion at all. -/
theorem non_affirmative_cancels (st : FSState) (now d : Int) (k : Nat)
    (resp : String) (delOk : FileEntry → Bool)
    (hex : st.pathExists = true)
    (helig : eligibleByAge st.files (cutoffTimestamp now d) ≠ [])
    (hk : k < st.files.length)
    (hresp : strLower resp ≠ "y") :
    (housekeep_by_age st now d true resp delOk).1 = .ok 0 ∧
    (housekeep_by_age st now d true resp delOk).2.attempts = [] ∧
    (housekeep_by_age st now d true resp delOk).2.deleted = [] ∧
    "Deletion cancelled." ∈
      (housekeep_by_age st now d true resp delOk).2.messages ∧
    (housekeep_by_count st k true resp delOk).1 = .ok 0 ∧
    (housekeep_by_count st k true resp delOk).2.attempts = [] ∧
    (housekeep_by_count st k true resp delOk).2.deleted = [] ∧
    "Deletion cancelled." ∈
      (housekeep_by_count st k true resp delOk).2.messages := by
  have he : (eligibleByAge st.files (cutoffTimestamp now d)).isEmpty = false := by
    simpa [List.isEmpty_iff] using helig
  have hk2 : ¬ st.files.length ≤ k := not_le.mpr hk
  simp [housekeep_by_age, housekeep_by_count, hex, he, hk2, hresp]

/-- C4 witness: response "n" on a directory with one eligible file — both
operations return 0 with nothing attempted. -/
theorem non_affirmative_cancels_witness :
    (cancelState.pathExists = true ∧
       eligibleByAge cancelState.files (cutoffTimestamp 1000000 7) ≠ [] ∧
       0 < cancelState.files.length ∧ strLower "n" ≠ "y") ∧
      (housekeep_by_age cancelState 1000000 7 true "n" (fun _ => true)).1 =
        .ok 0 ∧
      (housekeep_by_age cancelState 1000000 7 true "n"
          (fun _ => true)).2.attempts = [] :=
  ⟨⟨rfl, by decide, by decide, by decide⟩,
   (non_affirmative_cancels cancelState 1000000 7 0 "n" (fun _ => true) rfl
      (by decide) (by decide) (by decide)).1,
   (non_affirmative_cancels cancelState 1000000 7 0 "n" (fun _ => true) rfl
      (by decide) (by decide) (by decide)).2.1⟩

/-- C5: under an arbitrary per-file deletion outcome, both operations
(confirmation off) attempt every eligible file, never re-raise a failure —
the result is a normal `.ok` count — and return exactly the number of
deletions that succeeded; the deleted set is exactly the successful
subset. -/
theorem failure_isolation_best_effort (st : FSState) (now d : Int) (k : Nat)
    (resp : String) (delOk : FileEntry → Bool) (hex : st.pathExists = true) :
    (housekeep_by_age st now d false resp delOk).2.attempts =
      eligibleByAge st.files (cutoffTimestamp now d) ∧
    (housekeep_by_age st now d false resp delOk).1 =
      .ok ((eligibleByAge st.files (cutoffTimestamp now d)).filter
        delOk).length ∧
    (housekeep_by_age st now d false resp delOk).2.deleted =
      (eligibleByAge st.files (cutoffTimestamp now d)).filter delOk ∧
    (housekeep_by_count st k false resp delOk).2.attempts =
      (sortByMtimeDesc st.files).drop k ∧
    (housekeep_by_count st k false resp delOk).1 =
      .ok (((sortByMtimeDesc st.files).drop k).filter delOk).length ∧
    (housekeep_by_count st k false resp delOk).2.deleted =
      ((sortByMtimeDesc st.files).drop k).filter delOk := by
  rw [age_no_confirm st now d resp delOk hex,
    count_no_confirm st k resp delOk hex]
  exact ⟨rfl, rfl, rfl, rfl, rfl, rfl⟩

/-- C5 witness: three eligible files with the middle deletion failing —
both survivors of the failure are still deleted and the count is 2. -/
theorem failure_isolation_best_effort_witness :
    mixedState.pathExists = true ∧
      (housekeep_by_age mixedState 1000000 7 false ""
          (fun f => f.path != "b")).1 = .ok 2 ∧
      (housekeep_by_age mixedState 1000000 7 false ""
          (fun f => f.path != "b")).2.attempts = mixedState.files :=
  ⟨rfl,
   (failure_isolation_best_effort mixedState 1000000 7 0 ""
      (fun f => f.path != "b") rfl).2.1,
   (failure_isolation_best_effort mixedState 1000000 7 0 ""
      (fun f => f.path != "b") rfl).1⟩

/-- C6: with no age-eligible files, or with at most `keep_count` files
discovered, the respective operation returns 0, attempts and deletes
nothing, and never issues the confirmation prompt — whatever the
`confirm` argument. -/
theorem nothing_to_do_no_prompt (st : FSState) (now d : Int) (k : Nat)
    (c : Bool) (resp : String) (delOk : FileEntry → Bool)
    (hex : st.pathExists = true)
    (helig : eligibleByAge st.files (cutoffTimestamp now d) = [])
    (hk : st.files.length ≤ k) :
    (housekeep_by_age st now d c resp delOk).1 = .ok 0 ∧
    (housekeep_by_age st now d c resp delOk).2.prompted = false ∧
    (housekeep_by_age st now d c resp delOk).2.attempts = [] ∧
    (housekeep_by_age st now d c resp delOk).2.deleted = [] ∧
    (housekeep_by_count st k c resp delOk).1 = .ok 0 ∧
    (housekeep_by_count st k c resp delOk).2.prompted = false ∧
    (housekeep_by_count st k c resp delOk).2.attempts = [] ∧
    (housekeep_by_count st k c resp delOk).2.deleted = [] := by
  simp [housekeep_by_age, housekeep_by_count, hex, helig, hk]

/-- C6 witness: an empty existing directory, with `confirm = true` — both
operations return 0 without prompting. -/
theorem nothing_to_do_no_prompt_witness :
    (emptyDirState.pathExists = true ∧
       eligibleByAge emptyDirState.files (cutoffTimestamp 0 7) = [] ∧
       emptyDirState.files.length ≤ 5) ∧
      (housekeep_by_age emptyDirState 0 7 true "" (fun _ => true)).1 =
        .ok 0 ∧
      (housekeep_by_count emptyDirState 5 true ""
          (fun _ => true)).2.prompted = false :=
  ⟨⟨rfl, rfl, by decide⟩,
   (nothing_to_do_no_prompt emptyDirState 0 7 5 true "" (fun _ => true) rfl
      rfl (by decide)).1,
   (nothing_to_do_no_prompt emptyDirState 0 7 5 true "" (fun _ => true) rfl
      rfl (by decide)).2.2.2.2.2.1⟩

/-- C7: a discovered file is selected by the age policy iff its
modification time is strictly below `now - days_old`; a file whose
modification time equals the cutoff exactly is not selected. -/
theorem age_eligibility_strict (st : FSState) (now d : Int) (resp : String)
    (delOk : FileEntry → Bool) (f : FileEntry)
    (hex : st.pathExists = true) :
    (f ∈ (housekeep_by_age st now d false resp delOk).2.attempts ↔
      f ∈ st.files ∧ f.mtime < cutoffTimestamp now d) ∧
    (f.mtime = cutoffTimestamp now d →
      f ∉ (housekeep_by_age st now d false resp delOk).2.attempts) := by
  have hchar : f ∈ eligibleByAge st.files (cutoffTimestamp now d) ↔
      f ∈ st.files ∧ f.mtime < cutoffTimestamp now d := by
    simp [eligibleByAge]
  rw [age_no_confirm st now d resp delOk hex]
  refine ⟨hchar, fun hEq hmem => ?_⟩
  exact absurd (hchar.mp hmem).2 (by rw [hEq]; exact lt_irrefl _)

/-- C7 witness: a file exactly at the cutoff (`mtime = 1000000 - 7·86400`)
is not among the attempted deletions, while the strictly older one is. -/
theorem age_eligibility_strict_witness :
    boundaryState.pathExists = true ∧
      ({ path := "edge", mtime := 395200 } : FileEntry) ∉
        (housekeep_by_age boundaryState 1000000 7 false ""
          (fun _ => true)).2.attempts :=
  ⟨rfl,
   (age_eligibility_strict boundaryState 1000000 7 "" (fun _ => true)
      { path := "edge", mtime := 395200 } rfl).2 (by decide)⟩

/-- C8: after an age run with confirmation off and every deletion
succeeding, a second run over the surviving files with the same threshold
selects only survivors — never a previously deleted file — its eligible
count does not exceed the first run's, and it deletes nothing (returns 0).
-/
theorem age_second_run_shrinks (st : FSState) (now d : Int)
    (resp resp2 : String) (hex : st.pathExists = true) :
    (∀ f ∈ eligibleByAge
        (applyDeletions st
          (housekeep_by_age st now d false resp
            (fun _ => true)).2.deleted).files
        (cutoffTimestamp now d),
      f ∈ (applyDeletions st
          (housekeep_by_age st now d false resp
            (fun _ => true)).2.deleted).files ∧
      f ∉ (housekeep_by_age st now d false resp (fun _ => true)).2.deleted) ∧
    (eligibleByAge
        (applyDeletions st
          (housekeep_by_age st now d false resp
            (fun _ => true)).2.deleted).files
        (cutoffTimestamp now d)).length ≤
      (eligibleByAge st.files (cutoffTimestamp now d)).length ∧
    (housekeep_by_age
        (applyDeletions st
          (housekeep_by_age st now d false resp (fun _ => true)).2.deleted)
        now d false resp2 (fun _ => true)).1 = .ok 0 := by
  have hdel : (housekeep_by_age st now d false resp
      (fun _ => true)).2.deleted =
      eligibleByAge st.files (cutoffTimestamp now d) := by
    rw [age_no_confirm st now d resp (fun _ => true) hex]
    exact List.filter_true _
  have hnil : eligibleByAge
      (applyDeletions st
        (housekeep_by_age st now d false resp
          (fun _ => true)).2.deleted).files
      (cutoffTimestamp now d) = [] := by
    rw [hdel, List.eq_nil_iff_forall_not_mem]
    intro f hf
    simp [eligibleByAge, applyDeletions] at hf
    rcases hf.2.2 with hmem | hle
    · exact hmem hf.1
    · exact absurd hf.2.1 (not_lt.mpr hle)
  refine ⟨?_, ?_, ?_⟩
  · intro f hf
    rw [hnil] at hf
    exact absurd hf (List.not_mem_nil f)
  · rw [hnil]; simp
  · rw [age_no_confirm
      (applyDeletions st
        (housekeep_by_age st now d false resp (fun _ => true)).2.deleted)
      now d resp2 (fun _ => true) hex, hnil]
    rfl

/-- C8 witness: one stale and one fresh file; after the first run deletes
the stale file, the second run returns 0. -/
theorem age_second_run_shrinks_witness :
    agingState.pathExists = true ∧
      (housekeep_by_age
          (applyDeletions agingState
            (housekeep_by_age agingState 1000000 7 false ""
              (fun _ => true)).2.deleted)
          1000000 7 false "" (fun _ => true)).1 = .ok 0 :=
  ⟨rfl, (age_second_run_shrinks agingState 1000000 7 "" "" rfl).2.2⟩

/-- C9: with neither `days_old` nor `keep_count` provided,
`cleanup_directory` prints only the usage hint and returns 0: no error is
raised even when the directory does not exist (the existence check never
runs), no prompt is issued, and nothing is attempted or deleted. -/
theorem cleanup_directory_no_args (st : FSState) (now : Int) (resp : String)
    (delOk : FileEntry → Bool) :
    cleanup_directory st now none none resp delOk =
      (.ok 0,
       { messages := ["Specify days_old or keep_count"], prompted := false,
         attempts := [], deleted := [] }) := rfl

/-- C10: a path that exists but is a regular file rather than a directory
passes the precondition of both operations without the directory-not-found
error: the check tests only that the path exists, not that it is
inspectable as a directory. -/
theorem exists_check_ignores_kind :
    plainFileState.pathExists = true ∧
    plainFileState.isDirectory = false ∧
    (housekeep_by_age plainFileState 0 7 false "" (fun _ => true)).1 =
      .ok 0 ∧
    (housekeep_by_count plainFileState 5 false "" (fun _ => true)).1 =
      .ok 0 :=
  ⟨rfl, rfl, rfl, rfl⟩

end Housekeeper
